import Mathlib

/-!
Shallow embedding of the wallet connection state store in
`src/hooks/useWallet.ts` (React hook `useWallet`), together with the
provider event handlers it installs.  Provider / RPC responses are
passed in explicitly as environments, since in the source they arrive
from the browser-injected `window.ethereum` object and the Web3 client.
-/

namespace Wallet

/-- The `WalletState` record from `src/types/wallet.ts`; `null` fields are
modelled as `Option`. -/
structure WalletState where
  address : Option String
  isConnected : Bool
  isConnecting : Bool
  error : Option String
  chainId : Option String
  balance : Option String
deriving DecidableEq

/-- The initial state passed to `useState` in `useWallet` (all-null defaults). -/
def initialWalletState : WalletState :=
  { address := none, isConnected := false, isConnecting := false,
    error := none, chainId := none, balance := none }

/-- The store the hook manipulates: the React wallet state together with the
`localStorage` entry under the key `"isWalletConnected"` (`none` when the key
is absent). -/
structure StoreState where
  wallet : WalletState
  reconnectFlag : Option String
deriving DecidableEq

/-- Store at first mount: default wallet state, no persisted flag. -/
def initialStore : StoreState := { wallet := initialWalletState, reconnectFlag := none }

/-- A JavaScript thrown value as the catch blocks in `useWallet.ts`
distinguish them: an `Error` instance carrying a `.message` string, or any
other thrown value. -/
inductive JsError where
  | errObj (message : String)
  | nonErrValue
deriving DecidableEq

/-- Message extraction in `connect`'s inner catch:
`requestError instanceof Error ? requestError.message : "User rejected connection"`. -/
def JsError.connectMessage : JsError → String
  | .errObj m => m
  | .nonErrValue => "User rejected connection"

/-- Helper for `String.prototype.includes`: does `pat` occur as a contiguous
run inside the character list `l`? -/
def includesAux (pat : List Char) : List Char → Bool
  | [] => pat.isEmpty
  | c :: tl => pat.isPrefixOf (c :: tl) || includesAux pat tl

/-- JavaScript `s.includes(pat)`. -/
def strIncludes (s pat : String) : Bool :=
  includesAux pat.toList s.toList

/-- Error normalization at lines 91-93 of `useWallet.ts`:
`errorMessage.includes("User rejected") ? "Connection rejected by user" : errorMessage`. -/
def normalizeRejection (msg : String) : String :=
  if strIncludes msg "User rejected" then "Connection rejected by user" else msg

/-- Left-pad the decimal rendering of `n` with zeros to 4 digits (for the
fractional part printed by `toFixed(4)`). -/
def pad4 (n : Nat) : String :=
  let s := toString n
  String.mk (List.replicate (4 - s.length) '0') ++ s

/-- Balance formatting pipeline of `useWallet.ts`:
`web3.utils.fromWei(balanceWei, "ether")` followed by
`Number.parseFloat(...).toFixed(4)`.  `fromWei` renders the exact decimal
`wei / 10^18`; `toFixed(4)` rounds to the nearest multiple of `10^-4`
(exact midpoints round up).  Modelled over exact rationals via integer
arithmetic: `wei * 10^4 / 10^18` rounded to the nearest integer.  The
float64 detour through `parseFloat` agrees with this exact model whenever
the value is not within double-rounding distance of a `5·10^-5` midpoint,
which holds for every balance considered in this development. -/
def formatEth4 (wei : Nat) : String :=
  let scaled := wei * 10000
  let q := scaled / 1000000000000000000
  let r := scaled % 1000000000000000000
  let n := if 1000000000000000000 ≤ 2 * r then q + 1 else q
  toString (n / 10000) ++ "." ++ pad4 (n % 10000)

/-- The connected snapshot built by `connect`'s success path (lines 71-78),
also produced by the auto-reconnect and `accountsChanged` success paths:
address from `accounts[0]`, `chainId` via `String(chainId)`, balance via
`formatEth4`. -/
def connectedWallet (address : String) (chainId : Nat) (wei : Nat) : WalletState :=
  { address := some address, isConnected := true, isConnecting := false,
    error := none, chainId := some (toString chainId), balance := some (formatEth4 wei) }

deriving instance DecidableEq for Except

/-- Environment for one `connect()` call: whether `window.ethereum` exists,
and the outcomes of `eth_requestAccounts`, `web3.eth.getChainId`, and
`web3.eth.getBalance` (balance in wei). -/
structure ConnectEnv where
  providerPresent : Bool
  requestAccountsResult : Except JsError (List String)
  chainIdResult : Except JsError Nat
  balanceResult : Except JsError Nat
deriving DecidableEq

/-- Result of running one store operation: the successive wallet states set
by each `setWalletState` call (in order, intermediate states included), the
resulting store (state plus persisted flag), and the list of methods passed
to `window.ethereum.request` during the operation. -/
structure OpResult where
  trace : List WalletState
  store : StoreState
  methods : List String
deriving DecidableEq

/-- The `connect` callback (lines 28-106 of `useWallet.ts`).  The outer
catch (lines 96-105) only guards the provider-presence check and a
`setWalletState` call, neither of which throws, so every request/fetch
failure is handled by the inner catch (lines 82-95), which sets
`isConnecting := false` and a normalized `error` while spreading the rest of
the previous state. -/
def connect (env : ConnectEnv) (s : StoreState) : OpResult :=
  if env.providerPresent = false then
    let w := { s.wallet with error := some "MetaMask is not installed. Please install it." }
    { trace := [w], store := { s with wallet := w }, methods := [] }
  else
    let w1 := { s.wallet with isConnecting := true, error := none }
    match env.requestAccountsResult with
    | .error e =>
      let w2 := { w1 with
        isConnecting := false
        error := some (normalizeRejection e.connectMessage) }
      { trace := [w1, w2]
        store := { s with wallet := w2 }
        methods := ["eth_requestAccounts"] }
    | .ok accounts =>
      if accounts.isEmpty then
        let w2 := { w1 with
          isConnecting := false
          error := some "No accounts found or user rejected connection" }
        { trace := [w1, w2]
          store := { s with wallet := w2 }
          methods := ["eth_requestAccounts"] }
      else
        match env.chainIdResult with
        | .error e =>
          let w2 := { w1 with
            isConnecting := false
            error := some (normalizeRejection e.connectMessage) }
          { trace := [w1, w2]
            store := { s with wallet := w2 }
            methods := ["eth_requestAccounts"] }
        | .ok chainId =>
          match env.balanceResult with
          | .error e =>
            let w2 := { w1 with
              isConnecting := false
              error := some (normalizeRejection e.connectMessage) }
            { trace := [w1, w2]
              store := { s with wallet := w2 }
              methods := ["eth_requestAccounts"] }
          | .ok wei =>
            let w2 := connectedWallet (accounts.headD "") chainId wei
            { trace := [w1, w2]
              store := { wallet := w2, reconnectFlag := some "true" }
              methods := ["eth_requestAccounts"] }

/-- The `disconnect` callback (lines 109-140): resets the wallet state to
the all-null defaults, removes the `"isWalletConnected"` key, and
best-effort issues `wallet_revokePermissions` when a provider is present
(its failure is swallowed and changes nothing). -/
def disconnect (providerPresent : Bool) (_s : StoreState) : OpResult :=
  { trace := [initialWalletState]
    store := { wallet := initialWalletState, reconnectFlag := none }
    methods := if providerPresent then ["wallet_revokePermissions"] else [] }

/-- Environment for the mount-time auto-reconnect effect (lines 143-176):
whether `getWeb3()` yields a provider, and the outcomes of the silent
`eth_accounts` query, `web3.eth.getChainId`, and `web3.eth.getBalance`. -/
structure ReconnectEnv where
  providerPresent : Bool
  accountsResult : Except JsError (List String)
  chainIdResult : Except JsError Nat
  balanceResult : Except JsError Nat
deriving DecidableEq

/-- The mount-time auto-reconnect effect (lines 143-176): runs only when the
persisted flag reads `"true"`; returns early when no provider; queries
`eth_accounts` silently; on a nonempty result fetches chain id and balance
and replaces the state with the connected snapshot; the catch clears the
flag; an empty account list falls through the `if` with no action at all. -/
def autoReconnect (env : ReconnectEnv) (s : StoreState) : OpResult :=
  if s.reconnectFlag ≠ some "true" then
    { trace := [], store := s, methods := [] }
  else if env.providerPresent = false then
    { trace := [], store := s, methods := [] }
  else
    match env.accountsResult with
    | .error _ =>
      { trace := [], store := { s with reconnectFlag := none }, methods := ["eth_accounts"] }
    | .ok accounts =>
      if accounts.isEmpty then
        { trace := [], store := s, methods := ["eth_accounts"] }
      else
        match env.chainIdResult with
        | .error _ =>
          { trace := []
            store := { s with reconnectFlag := none }
            methods := ["eth_accounts"] }
        | .ok chainId =>
          match env.balanceResult with
          | .error _ =>
            { trace := []
              store := { s with reconnectFlag := none }
              methods := ["eth_accounts"] }
          | .ok wei =>
            let w := connectedWallet (accounts.headD "") chainId wei
            { trace := [w]
              store := { s with wallet := w }
              methods := ["eth_accounts"] }

/-- Environment for one `accountsChanged` event: outcomes of the chain-id
and balance fetches done by `handleAccountsChanged`. -/
structure AccountsChangedEnv where
  chainIdResult : Except JsError Nat
  balanceResult : Except JsError Nat
deriving DecidableEq

/-- The `handleAccountsChanged` listener (lines 207-236): an empty account
array calls `disconnect()`; otherwise it fetches chain id and balance for
`accounts[0]` and merges `{address, isConnected:true, chainId, balance,
error:null}` into the previous state (note `isConnecting` is spread from
`prev`, untouched); any fetch failure only sets
`error := "Failed to update account information"`. -/
def handleAccountsChanged (providerPresent : Bool) (env : AccountsChangedEnv)
    (accounts : List String) (s : StoreState) : OpResult :=
  if accounts.isEmpty then
    disconnect providerPresent s
  else
    match env.chainIdResult with
    | .error _ =>
      let w := { s.wallet with error := some "Failed to update account information" }
      { trace := [w], store := { s with wallet := w }, methods := [] }
    | .ok chainId =>
      match env.balanceResult with
      | .error _ =>
        let w := { s.wallet with error := some "Failed to update account information" }
        { trace := [w], store := { s with wallet := w }, methods := [] }
      | .ok wei =>
        let w := { s.wallet with
          address := some (accounts.headD "")
          isConnected := true
          chainId := some (toString chainId)
          balance := some (formatEth4 wei)
          error := none }
        { trace := [w], store := { s with wallet := w }, methods := [] }

/-- Numeric value of a hexadecimal digit character, if it is one. -/
def hexDigitVal (c : Char) : Option Nat :=
  if '0' ≤ c ∧ c ≤ '9' then some (c.toNat - '0'.toNat)
  else if 'a' ≤ c ∧ c ≤ 'f' then some (c.toNat - 'a'.toNat + 10)
  else if 'A' ≤ c ∧ c ≤ 'F' then some (c.toNat - 'A'.toNat + 10)
  else none

/-- Accumulate the leading hexadecimal digits of a character list. -/
def hexAccum (acc : Nat) : List Char → Nat
  | [] => acc
  | c :: tl =>
    match hexDigitVal c with
    | some d => hexAccum (acc * 16 + d) tl
    | none => acc

/-- JavaScript `parseInt(s, 16)` for the provider's `chainChanged` payload
(a hex chain-id string such as `"0x1"`): an optional `0x`/`0X` prefix is
skipped, the longest leading run of hex digits is parsed, and `none` stands
for `NaN` (no digits). -/
def jsParseIntHex (s : String) : Option Nat :=
  let cs := s.toList
  let cs := if cs.take 2 = ['0', 'x'] ∨ cs.take 2 = ['0', 'X'] then cs.drop 2 else cs
  match cs with
  | [] => none
  | c :: _ =>
    match hexDigitVal c with
    | none => none
    | some _ => some (hexAccum 0 (cs.takeWhile (fun d => (hexDigitVal d).isSome)))

/-- Environment for one `chainChanged` event: outcomes of the `eth_accounts`
query and the balance fetch done by `handleChainChanged`. -/
structure ChainChangedEnv where
  accountsResult : Except JsError (List String)
  balanceResult : Except JsError Nat
deriving DecidableEq

/-- The `handleChainChanged` listener (lines 238-290): returns immediately
when the captured state is not connected; otherwise decodes the hex payload
via `parseInt(chainIdHex, 16).toString()` (`NaN` prints as `"NaN"`), queries
`eth_accounts`, and either merges the refreshed snapshot, disconnects on an
empty account list, or on a fetch failure only sets
`error := "Failed to update network information"`. -/
def handleChainChanged (providerPresent : Bool) (env : ChainChangedEnv)
    (chainIdHex : String) (s : StoreState) : OpResult :=
  if s.wallet.isConnected = false then
    { trace := [], store := s, methods := [] }
  else
    let chainId := match jsParseIntHex chainIdHex with
      | some n => toString n
      | none => "NaN"
    match env.accountsResult with
    | .error _ =>
      let w := { s.wallet with error := some "Failed to update network information" }
      { trace := [w], store := { s with wallet := w }, methods := ["eth_accounts"] }
    | .ok accounts =>
      if accounts.isEmpty then
        let r := disconnect providerPresent s
        { r with methods := "eth_accounts" :: r.methods }
      else
        match env.balanceResult with
        | .error _ =>
          let w := { s.wallet with error := some "Failed to update network information" }
          { trace := [w], store := { s with wallet := w }, methods := ["eth_accounts"] }
        | .ok wei =>
          let w := { s.wallet with
            chainId := some chainId
            address := some (accounts.headD "")
            isConnected := true
            balance := some (formatEth4 wei)
            error := none }
          { trace := [w], store := { s with wallet := w }, methods := ["eth_accounts"] }

/-- The `handleDisconnect` listener (lines 292-295): just calls `disconnect()`. -/
def handleDisconnect (providerPresent : Bool) (s : StoreState) : OpResult :=
  disconnect providerPresent s

/-- A user-initiated store operation, for reasoning about sequences of
`connect()` and `disconnect()` calls each run to completion. -/
inductive WalletOp where
  | connectOp (env : ConnectEnv)
  | disconnectOp (providerPresent : Bool)
deriving DecidableEq

/-- Run one operation on the store. -/
def runOp : WalletOp → StoreState → OpResult
  | .connectOp env, s => connect env s
  | .disconnectOp p, s => disconnect p s

/-- Run a sequence of operations from a store state, concatenating the
wallet-state traces (every intermediate `setWalletState` result, in order). -/
def runOps : List WalletOp → StoreState → List WalletState × StoreState
  | [], s => ([], s)
  | op :: rest, s =>
    let r := runOp op s
    let rec' := runOps rest r.store
    (r.trace ++ rec'.1, rec'.2)

/-- Does the `connect` environment describe a failure in the request/fetch
path: provider request rejection, chain-id fetch failure, or balance fetch
failure? (The empty-account-list outcome is a separate branch, not a thrown
failure.) -/
def connectFetchFails (env : ConnectEnv) : Bool :=
  match env.requestAccountsResult with
  | .error _ => true
  | .ok accounts =>
    if accounts.isEmpty then false
    else
      match env.chainIdResult with
      | .error _ => true
      | .ok _ =>
        match env.balanceResult with
        | .error _ => true
        | .ok _ => false

/-- Does the auto-reconnect environment describe a thrown failure (rejection
of the accounts query, or of a subsequent fetch reached with a nonempty
account list)? -/
def reconnectThrows (env : ReconnectEnv) : Bool :=
  match env.accountsResult with
  | .error _ => true
  | .ok accounts =>
    if accounts.isEmpty then false
    else
      match env.chainIdResult with
      | .error _ => true
      | .ok _ =>
        match env.balanceResult with
        | .error _ => true
        | .ok _ => false

/-- Any single operation leaves `isConnecting` false at its completion,
provided it was false at the start. -/
theorem runOp_isConnecting_false (op : WalletOp) (s : StoreState)
    (h : s.wallet.isConnecting = false) :
    (runOp op s).store.wallet.isConnecting = false := by
  cases op with
  | connectOp env =>
    obtain ⟨p, ra, ci, ba⟩ := env
    cases p
    · simpa [runOp, connect] using h
    · cases ra with
      | error e => simp [runOp, connect]
      | ok accounts =>
        cases haccs : accounts.isEmpty
        · cases ci with
          | error e => simp [runOp, connect, haccs]
          | ok c =>
            cases ba with
            | error e => simp [runOp, connect, haccs]
            | ok b => simp [runOp, connect, haccs, connectedWallet]
        · simp [runOp, connect, haccs]
  | disconnectOp p => simp [runOp, disconnect, initialWalletState]

/-- At every operation boundary of a connect/disconnect sequence,
`isConnecting` is false (given it starts false). -/
theorem runOps_isConnecting_false (ops : List WalletOp) (s : StoreState)
    (h : s.wallet.isConnecting = false) :
    (runOps ops s).2.wallet.isConnecting = false := by
  induction ops generalizing s with
  | nil => exact h
  | cons op rest ih => exact ih (runOp op s).store (runOp_isConnecting_false op s h)

/-- Claim C1, counterexample: in the sequence [connect, connect] where both
connects succeed, the wallet-state trace contains a state with
`isConnecting` and `isConnected` simultaneously true — the transient update
at line 40 of `useWallet.ts` spreads `isConnecting := true` over the
still-connected previous state. -/
theorem connect_invariant_counterexample :
    ∃ w ∈ (runOps
        [.connectOp ⟨true, .ok ["0xABC"], .ok 1, .ok 1000000000000000000⟩,
         .connectOp ⟨true, .ok ["0xABC"], .ok 1, .ok 1000000000000000000⟩]
        initialStore).1,
      w.isConnecting = true ∧ w.isConnected = true := by decide

/-- Claim C1, amended: for every sequence of connect/disconnect calls from
the initial store, at every point where an operation has completed (the
transient mid-connect update excluded), `isConnecting` and `isConnected`
are never both true. -/
theorem connect_disconnect_boundary_invariant (ops : List WalletOp) :
    ((runOps ops initialStore).2.wallet.isConnecting &&
      (runOps ops initialStore).2.wallet.isConnected) = false := by
  have h := runOps_isConnecting_false ops initialStore rfl
  simp [h]

/-- Claim C2, counterexample: a chain-id fetch failure during a `connect()`
issued while the store is already connected ends with `error` set and
`isConnecting = false`, but `isConnected` still true — the inner catch
spreads the previous state and never forces `isConnected` false. -/
theorem connect_failure_keeps_connected_counterexample :
    (((connect ⟨true, .ok ["0xABC"], .error (.errObj "boom"), .ok 0⟩
        (connect ⟨true, .ok ["0xABC"], .ok 1, .ok 1000000000000000000⟩
          initialStore).store).store.wallet.isConnecting,
      (connect ⟨true, .ok ["0xABC"], .error (.errObj "boom"), .ok 0⟩
        (connect ⟨true, .ok ["0xABC"], .ok 1, .ok 1000000000000000000⟩
          initialStore).store).store.wallet.isConnected,
      (connect ⟨true, .ok ["0xABC"], .error (.errObj "boom"), .ok 0⟩
        (connect ⟨true, .ok ["0xABC"], .ok 1, .ok 1000000000000000000⟩
          initialStore).store).store.wallet.error) :
      Bool × Bool × Option String) = (false, true, some "boom") := by decide

/-- Claim C2, amended: every failure in `connect()`'s request/fetch path
ends with `error` set to a message string and `isConnecting = false`, while
`isConnected` retains its value from before the call (so it is false
whenever the store was not already connected). -/
theorem connect_fetch_failure_state (env : ConnectEnv) (s : StoreState)
    (hp : env.providerPresent = true) (hf : connectFetchFails env = true) :
    (∃ m, (connect env s).store.wallet.error = some m) ∧
    (connect env s).store.wallet.isConnecting = false ∧
    (connect env s).store.wallet.isConnected = s.wallet.isConnected := by
  obtain ⟨p, ra, ci, ba⟩ := env
  cases p
  · cases hp
  · cases ra with
    | error e => simp [connect]
    | ok accounts =>
      cases haccs : accounts.isEmpty with
      | true => simp [connectFetchFails, haccs] at hf
      | false =>
        cases ci with
        | error e => simp [connect, haccs]
        | ok c =>
          cases ba with
          | error e => simp [connect, haccs]
          | ok b => simp [connectFetchFails, haccs] at hf

/-- Witness for `connect_fetch_failure_state` at a concrete rejected
request from the initial store. -/
theorem connect_fetch_failure_state_witness :
    (∃ m, (connect ⟨true, .error (.errObj "boom"), .ok 1, .ok 0⟩
        initialStore).store.wallet.error = some m) ∧
    (connect ⟨true, .error (.errObj "boom"), .ok 1, .ok 0⟩
        initialStore).store.wallet.isConnecting = false ∧
    (connect ⟨true, .error (.errObj "boom"), .ok 1, .ok 0⟩
        initialStore).store.wallet.isConnected = initialStore.wallet.isConnected :=
  connect_fetch_failure_state ⟨true, .error (.errObj "boom"), .ok 1, .ok 0⟩
    initialStore rfl (by decide)

/-- Claim C3: `disconnect()` always yields the exact default record with the
persisted flag cleared, and is idempotent. -/
theorem disconnect_resets_and_idempotent (p q : Bool) (s : StoreState) :
    (disconnect p s).store =
      { wallet := { address := none, isConnected := false, isConnecting := false,
                    error := none, chainId := none, balance := none },
        reconnectFlag := none } ∧
    (disconnect q (disconnect p s).store).store = (disconnect p s).store :=
  ⟨rfl, rfl⟩

/-- Claim C4, counterexample: with accounts `["0xABC"]`, chain id `1` and a
raw balance of `1.23456 ETH` (`1234560000000000000` wei), the formatted
balance is `"1.2346"` — `toFixed(4)` rounds to nearest — not the claimed
`"1.2345"`. -/
theorem connect_balance_format_counterexample :
    (connect ⟨true, .ok ["0xABC"], .ok 1, .ok 1234560000000000000⟩
        initialStore).store.wallet.balance = some "1.2346" ∧
      ("1.2346" : String) ≠ "1.2345" := by decide

/-- Claim C4, amended: with accounts `["0xABC"]`, chain id `1` and a raw
balance of `1.23456 ETH`, `connect()` ends in the connected snapshot with
`chainId = "1"` and `balance = "1.2346"` (4-digit round-to-nearest), and
persists the reconnect flag. -/
theorem connect_success_snapshot :
    (connect ⟨true, .ok ["0xABC"], .ok 1, .ok 1234560000000000000⟩
        initialStore).store =
      { wallet := { address := some "0xABC", isConnected := true,
                    isConnecting := false, error := none,
                    chainId := some "1", balance := some "1.2346" },
        reconnectFlag := some "true" } := by decide

/-- Claim C5: when the provider request rejects with an `Error` whose
message contains `"User rejected"`, the resulting `error` is exactly
`"Connection rejected by user"`. -/
theorem connect_user_rejected_message (env : ConnectEnv) (s : StoreState)
    (msg : String) (hp : env.providerPresent = true)
    (hr : env.requestAccountsResult = .error (.errObj msg))
    (hm : strIncludes msg "User rejected" = true) :
    (connect env s).store.wallet.error = some "Connection rejected by user" := by
  obtain ⟨p, ra, ci, ba⟩ := env
  subst hp
  cases hr
  simp [connect, JsError.connectMessage, normalizeRejection, hm]

/-- Witness for `connect_user_rejected_message` at a concrete MetaMask
rejection message. -/
theorem connect_user_rejected_message_witness :
    (connect ⟨true, .error (.errObj "MetaMask: User rejected the request."),
        .ok 1, .ok 0⟩ initialStore).store.wallet.error =
      some "Connection rejected by user" :=
  connect_user_rejected_message
    ⟨true, .error (.errObj "MetaMask: User rejected the request."), .ok 1, .ok 0⟩
    initialStore "MetaMask: User rejected the request." rfl rfl (by decide)

/-- Claim C6: with the persisted flag `"true"` and a nonempty silent
account query, the mount-time auto-reconnect produces exactly the wallet
state of `connect()`'s success path on the same data, and the only provider
method it issues is `eth_accounts` — never `eth_requestAccounts`. -/
theorem auto_reconnect_success (env : ReconnectEnv) (s : StoreState)
    (accounts : List String) (c b : Nat)
    (hflag : s.reconnectFlag = some "true")
    (hp : env.providerPresent = true)
    (ha : env.accountsResult = .ok accounts)
    (hne : accounts ≠ [])
    (hc : env.chainIdResult = .ok c)
    (hb : env.balanceResult = .ok b) :
    (autoReconnect env s).store.wallet = connectedWallet (accounts.headD "") c b ∧
    (autoReconnect env s).store.wallet =
      (connect ⟨true, .ok accounts, .ok c, .ok b⟩ s).store.wallet ∧
    (autoReconnect env s).methods = ["eth_accounts"] ∧
    "eth_requestAccounts" ∉ (autoReconnect env s).methods := by
  obtain ⟨p, ra, ci, ba⟩ := env
  subst hp ha hc hb
  have hne' : accounts.isEmpty = false := by
    cases accounts with
    | nil => exact absurd rfl hne
    | cons a tl => rfl
  refine ⟨?_, ?_, ?_, ?_⟩ <;>
    simp [autoReconnect, connect, hflag, hne']

/-- Witness for `auto_reconnect_success` at a concrete authorized account. -/
theorem auto_reconnect_success_witness :
    (autoReconnect ⟨true, .ok ["0xDEF"], .ok 5, .ok 2000000000000000000⟩
        { wallet := initialWalletState, reconnectFlag := some "true" }).store.wallet =
      connectedWallet ((["0xDEF"] : List String).headD "") 5 2000000000000000000 ∧
    (autoReconnect ⟨true, .ok ["0xDEF"], .ok 5, .ok 2000000000000000000⟩
        { wallet := initialWalletState, reconnectFlag := some "true" }).store.wallet =
      (connect ⟨true, .ok ["0xDEF"], .ok 5, .ok 2000000000000000000⟩
        { wallet := initialWalletState, reconnectFlag := some "true" }).store.wallet ∧
    (autoReconnect ⟨true, .ok ["0xDEF"], .ok 5, .ok 2000000000000000000⟩
        { wallet := initialWalletState, reconnectFlag := some "true" }).methods =
      ["eth_accounts"] ∧
    "eth_requestAccounts" ∉
      (autoReconnect ⟨true, .ok ["0xDEF"], .ok 5, .ok 2000000000000000000⟩
        { wallet := initialWalletState, reconnectFlag := some "true" }).methods :=
  auto_reconnect_success
    ⟨true, .ok ["0xDEF"], .ok 5, .ok 2000000000000000000⟩
    { wallet := initialWalletState, reconnectFlag := some "true" }
    ["0xDEF"] 5 2000000000000000000 rfl rfl rfl (by decide) rfl rfl

/-- Claim C7, counterexample: when the provider returns an empty account
list, the auto-reconnect attempt leaves the persisted flag at `"true"` —
the empty-list branch falls through the `if` without clearing it, contrary
to the claim that every failure clears the flag. -/
theorem auto_reconnect_empty_accounts_counterexample :
    (autoReconnect ⟨true, .ok [], .ok 1, .ok 0⟩
        { wallet := initialWalletState, reconnectFlag := some "true" }).store.reconnectFlag =
      some "true" := by decide

/-- Claim C7, amended: a thrown failure of the auto-reconnect attempt (the
silent query or a subsequent fetch rejecting, with a provider present)
clears the persisted flag and leaves the wallet state at the all-null
defaults with no error; when the provider returns an empty account list the
state is likewise left untouched with no error, but the flag is NOT
cleared (the whole store is unchanged). -/
theorem auto_reconnect_failure_behavior :
    (∀ (env : ReconnectEnv) (s : StoreState),
      s.wallet = initialWalletState → s.reconnectFlag = some "true" →
      env.providerPresent = true → reconnectThrows env = true →
      (autoReconnect env s).store.wallet = initialWalletState ∧
      (autoReconnect env s).store.reconnectFlag = none) ∧
    (∀ (env : ReconnectEnv) (s : StoreState),
      env.accountsResult = .ok [] → (autoReconnect env s).store = s) := by
  constructor
  · intro env s hw hflag hp ht
    obtain ⟨p, ra, ci, ba⟩ := env
    subst hp
    cases ra with
    | error e => simp [autoReconnect, hflag, hw]
    | ok accounts =>
      cases haccs : accounts.isEmpty with
      | true => simp [reconnectThrows, haccs] at ht
      | false =>
        cases ci with
        | error e => simp [autoReconnect, hflag, haccs, hw]
        | ok c =>
          cases ba with
          | error e => simp [autoReconnect, hflag, haccs, hw]
          | ok b => simp [reconnectThrows, haccs] at ht
  · intro env s ha
    obtain ⟨p, ra, ci, ba⟩ := env
    cases ha
    by_cases hflag : s.reconnectFlag = some "true" <;>
      cases p <;> simp [autoReconnect, hflag]

/-- Witness for `auto_reconnect_failure_behavior`: a thrown accounts-query
failure clears the flag, and an empty account list changes nothing. -/
theorem auto_reconnect_failure_behavior_witness :
    ((autoReconnect ⟨true, .error JsError.nonErrValue, .ok 1, .ok 0⟩
        { wallet := initialWalletState, reconnectFlag := some "true" }).store.wallet =
        initialWalletState ∧
      (autoReconnect ⟨true, .error JsError.nonErrValue, .ok 1, .ok 0⟩
        { wallet := initialWalletState, reconnectFlag := some "true" }).store.reconnectFlag =
        none) ∧
    (autoReconnect ⟨true, .ok [], .ok 1, .ok 0⟩ initialStore).store = initialStore :=
  ⟨auto_reconnect_failure_behavior.1
      ⟨true, .error JsError.nonErrValue, .ok 1, .ok 0⟩
      { wallet := initialWalletState, reconnectFlag := some "true" }
      rfl rfl rfl (by decide),
    auto_reconnect_failure_behavior.2
      ⟨true, .ok [], .ok 1, .ok 0⟩ initialStore rfl⟩

/-- Claim C8: a `chainChanged` event delivered while the store is not
connected leaves the store entirely unchanged — no state update, no
provider request. -/
theorem chain_changed_not_connected_ignored (p : Bool) (env : ChainChangedEnv)
    (chainIdHex : String) (s : StoreState)
    (h : s.wallet.isConnected = false) :
    handleChainChanged p env chainIdHex s = { trace := [], store := s, methods := [] } := by
  simp [handleChainChanged, h]

/-- Witness for `chain_changed_not_connected_ignored` at the initial store. -/
theorem chain_changed_not_connected_ignored_witness :
    handleChainChanged true ⟨.ok ["0xABC"], .ok 0⟩ "0x1" initialStore =
      { trace := [], store := initialStore, methods := [] } :=
  chain_changed_not_connected_ignored true ⟨.ok ["0xABC"], .ok 0⟩ "0x1"
    initialStore rfl

/-- Claim C9: an `accountsChanged` event with an empty account array while
the store is connected transitions it to the exact default disconnected
record with the persisted flag cleared. -/
theorem accounts_changed_empty_disconnects (p : Bool) (env : AccountsChangedEnv)
    (s : StoreState) (_h : s.wallet.isConnected = true) :
    (handleAccountsChanged p env [] s).store =
      { wallet := { address := none, isConnected := false, isConnecting := false,
                    error := none, chainId := none, balance := none },
        reconnectFlag := none } := by
  simp [handleAccountsChanged, disconnect, initialWalletState]

/-- Witness for `accounts_changed_empty_disconnects` at a connected store. -/
theorem accounts_changed_empty_disconnects_witness :
    (handleAccountsChanged true ⟨.ok 1, .ok 0⟩ []
        { wallet := { address := some "0xABC", isConnected := true,
                      isConnecting := false, error := none,
                      chainId := some "1", balance := some "1.0000" },
          reconnectFlag := some "true" }).store =
      { wallet := { address := none, isConnected := false, isConnecting := false,
                    error := none, chainId := none, balance := none },
        reconnectFlag := none } :=
  accounts_changed_empty_disconnects true ⟨.ok 1, .ok 0⟩
    { wallet := { address := some "0xABC", isConnected := true,
                  isConnecting := false, error := none,
                  chainId := some "1", balance := some "1.0000" },
      reconnectFlag := some "true" } rfl

/-- Claim C10: an `accountsChanged` event with a nonempty account array
whose fetches succeed sets `isConnected := true` and the fetched address,
chain id and balance, clears `error`, and leaves `isConnecting` and the
persisted flag unchanged — from any prior store, the disconnected default
included. -/
theorem accounts_changed_nonempty_connects (p : Bool) (c b : Nat)
    (accounts : List String) (s : StoreState) (hne : accounts ≠ []) :
    (handleAccountsChanged p ⟨.ok c, .ok b⟩ accounts s).store.wallet.isConnected = true ∧
    (handleAccountsChanged p ⟨.ok c, .ok b⟩ accounts s).store.wallet.address =
      some (accounts.headD "") ∧
    (handleAccountsChanged p ⟨.ok c, .ok b⟩ accounts s).store.wallet.chainId =
      some (toString c) ∧
    (handleAccountsChanged p ⟨.ok c, .ok b⟩ accounts s).store.wallet.balance =
      some (formatEth4 b) ∧
    (handleAccountsChanged p ⟨.ok c, .ok b⟩ accounts s).store.wallet.isConnecting =
      s.wallet.isConnecting ∧
    (handleAccountsChanged p ⟨.ok c, .ok b⟩ accounts s).store.wallet.error = none ∧
    (handleAccountsChanged p ⟨.ok c, .ok b⟩ accounts s).store.reconnectFlag =
      s.reconnectFlag := by
  have hne' : accounts.isEmpty = false := by
    cases accounts with
    | nil => exact absurd rfl hne
    | cons a tl => rfl
  refine ⟨?_, ?_, ?_, ?_, ?_, ?_, ?_⟩ <;>
    simp [handleAccountsChanged, hne']

/-- Witness for `accounts_changed_nonempty_connects` from the disconnected
default store (no `connect()` ever succeeded). -/
theorem accounts_changed_nonempty_connects_witness :
    (handleAccountsChanged true ⟨.ok 5, .ok 0⟩ ["0xDEF"] initialStore).store.wallet.isConnected = true ∧
    (handleAccountsChanged true ⟨.ok 5, .ok 0⟩ ["0xDEF"] initialStore).store.wallet.address =
      some ((["0xDEF"] : List String).headD "") ∧
    (handleAccountsChanged true ⟨.ok 5, .ok 0⟩ ["0xDEF"] initialStore).store.wallet.chainId =
      some (toString 5) ∧
    (handleAccountsChanged true ⟨.ok 5, .ok 0⟩ ["0xDEF"] initialStore).store.wallet.balance =
      some (formatEth4 0) ∧
    (handleAccountsChanged true ⟨.ok 5, .ok 0⟩ ["0xDEF"] initialStore).store.wallet.isConnecting =
      initialStore.wallet.isConnecting ∧
    (handleAccountsChanged true ⟨.ok 5, .ok 0⟩ ["0xDEF"] initialStore).store.wallet.error = none ∧
    (handleAccountsChanged true ⟨.ok 5, .ok 0⟩ ["0xDEF"] initialStore).store.reconnectFlag =
      initialStore.reconnectFlag :=
  accounts_changed_nonempty_connects true 5 0 ["0xDEF"] initialStore (by decide)

end Wallet
